import Mathlib

/-
Verification of the dose-aggregation core of DEPDOSE (RunAll_Python2.py).
Floating-point values are modelled as exact rationals; pandas DataFrame rows
are modelled as explicit records; numpy vectors as functions out of Fin n.
-/

namespace Depdose

/-- Organ columns of the HDB coefficient tables that the script reads. -/
inductive Organ where
  | Ovaries | Testes | ULI_Wall | LLI_Wall | R_Marrow | Lungs | St_Wall | UB_Wall
  | Breasts | Liver | Thymus | Thyroid | Skin | B_Surface
  | Muscle | Brain | SI_Wall | Kidneys | Pancreas | Spleen | Uterus | Adrenals | ET_Region
  deriving DecidableEq

/-- The nine derived compartment deposition fractions of one kdep.csv line
(lines 176-192 of the source). -/
structure Fractions where
  ET1 : ℚ
  ET2 : ℚ
  bbe_GEL : ℚ
  bbe_SEQ : ℚ
  bbe_SOL : ℚ
  BBi_SEQ : ℚ
  BBi_SOL : ℚ
  BBi_GEL : ℚ
  AI : ℚ

/-- The named columns of one kdep.csv line, in file order
(AMAD, AMTD, ET1, ET2, B, bb, AI, Total, FsB, Fsbb). -/
structure KdepRow where
  AMAD : ℚ
  AMTD : ℚ
  ET1 : ℚ
  ET2 : ℚ
  B : ℚ
  bb : ℚ
  AI : ℚ
  Total : ℚ
  FsB : ℚ
  Fsbb : ℚ

/-- Reading the ten numeric columns of a kdep.csv line by position
(line[0] .. line[9] in the source). -/
def parseKdepLine (line : Fin 10 → ℚ) : KdepRow :=
  { AMAD := line 0, AMTD := line 1, ET1 := line 2, ET2 := line 3, B := line 4,
    bb := line 5, AI := line 6, Total := line 7, FsB := line 8, Fsbb := line 9 }

/-- The nine compartment fractions derived from one kdep.csv line exactly as in
source lines 177-192: ET1s, ET2s, AIs are taken from columns 2, 3, 6 unchanged;
BBi fractions split column 4 using FsB (column 8) with fixed gel/seq ratio
0.993/0.007; bbe fractions split column 5 using Fsbb (column 9) the same way. -/
def deriveFractions (line : Fin 10 → ℚ) : Fractions :=
  { ET1 := line 2
    ET2 := line 3
    bbe_GEL := line 5 * (0.993 - line 9)
    bbe_SEQ := line 5 * 0.007
    bbe_SOL := line 5 * line 9
    BBi_SEQ := line 4 * 0.007
    BBi_SOL := line 4 * line 8
    BBi_GEL := line 4 * (0.993 - line 8)
    AI := line 6 }

/-- One row-set worth of coefficient data: for each of the nine HDB tables,
the per-organ dose-per-unit-deposition coefficients of the resolved row. -/
structure CoeffSet where
  ET1 : Organ → ℚ
  ET2 : Organ → ℚ
  BBEGEL : Organ → ℚ
  BBESEQ : Organ → ℚ
  BBESOL : Organ → ℚ
  BBISEQ : Organ → ℚ
  BBISOL : Organ → ℚ
  BBIGEL : Organ → ℚ
  AI : Organ → ℚ

/-- The deposition-weighted sum dfSumEq of source line 233:
dfET1Eq*ET1 + dfET2Eq*ET2 + dfBBEGELEq*bbe_GEL + dfBBESEQEq*bbe_SEQ +
dfBBESOLEq*bbe_SOL + dfBBISEQEq*BBi_SEQ + dfBBISOLEq*BBi_SOL +
dfBBIGELEq*BBi_GEL + dfAIEq*AI, per organ column. -/
def blend (c : CoeffSet) (fr : Fractions) : Organ → ℚ := fun o =>
  c.ET1 o * fr.ET1 + c.ET2 o * fr.ET2 + c.BBEGEL o * fr.bbe_GEL +
  c.BBESEQ o * fr.bbe_SEQ + c.BBESOL o * fr.bbe_SOL + c.BBISEQ o * fr.BBi_SEQ +
  c.BBISOL o * fr.BBi_SOL + c.BBIGEL o * fr.BBi_GEL + c.AI o * fr.AI

/-- main_tissues_wt of source line 53. -/
def main_tissues_wt : Fin 12 → ℚ :=
  ![0.2, 0.12, 0.12, 0.12, 0.12, 0.05, 0.05, 0.05, 0.05, 0.05, 0.01, 0.01]

/-- colon of source line 237: ULI-Wall*0.57 + LLI-Wall*0.43. -/
def colon (d : Organ → ℚ) : ℚ := d Organ.ULI_Wall * 0.57 + d Organ.LLI_Wall * 0.43

/-- gonads of source line 240: max(Ovaries, Testes). -/
def gonads (d : Organ → ℚ) : ℚ := max (d Organ.Ovaries) (d Organ.Testes)

/-- main_tissues of source lines 243-246, in source order; the slot between
Liver and Thyroid (the output column labelled Oesophagus) is filled with the
Thymus column of dfSumEq. -/
def main_tissues (d : Organ → ℚ) : Fin 12 → ℚ :=
  ![gonads d, d Organ.R_Marrow, colon d, d Organ.Lungs, d Organ.St_Wall,
    d Organ.UB_Wall, d Organ.Breasts, d Organ.Liver, d Organ.Thymus,
    d Organ.Thyroid, d Organ.Skin, d Organ.B_Surface]

/-- main_tissues_eff of source line 247: np.dot(main_tissues, main_tissues_wt). -/
def main_tissues_eff (d : Organ → ℚ) : ℚ :=
  ∑ i, main_tissues d i * main_tissues_wt i

/-- remainder_tissues of source lines 250-252, in source order. -/
def remainder_tissues (d : Organ → ℚ) : Fin 10 → ℚ :=
  ![d Organ.Muscle, d Organ.Brain, d Organ.SI_Wall, d Organ.Kidneys,
    d Organ.Pancreas, d Organ.Spleen, d Organ.Thymus, d Organ.Uterus,
    d Organ.Adrenals, d Organ.ET_Region]

/-- remainder_tissues_dict of source lines 48-51 (index i is subject i+1). -/
def remainder_tissues_dict : Fin 8 → Fin 10 → ℚ :=
  ![![28000, 1400, 640, 310, 100, 180, 20, 80, 14, 15.5],
    ![28000, 1400, 640, 310, 100, 180, 20, 80, 14, 15.5],
    ![22000, 1410, 516, 248, 64.9, 123, 28.4, 80, 10.5, 12.1],
    ![22000, 1410, 516, 248, 64.9, 123, 28.4, 80, 10.5, 12.1],
    ![11000, 1360, 286, 173, 30, 77.4, 31.4, 4.2, 7.2, 7.1],
    ![5000, 1260, 169, 116, 23.6, 48.3, 29.6, 2.7, 5.3, 4.3],
    ![2500, 884, 84.9, 62.9, 10.3, 25.5, 22.9, 1.5, 3.5, 2.2],
    ![760, 352, 32.6, 22.9, 2.8, 9.1, 11.3, 3.9, 5.8, 1.3]]

/-- Maximum entry of a nonempty vector (numpy max). -/
def vecMax {n : ℕ} (v : Fin (n + 1) → ℚ) : ℚ :=
  Finset.univ.sup' ⟨0, Finset.mem_univ 0⟩ v

/-- First index attaining the maximum (numpy argmax returns the first
occurrence of the maximum value). -/
def argmaxVec {n : ℕ} (v : Fin (n + 1) → ℚ) : Fin (n + 1) :=
  (Finset.univ.filter fun i => v i = vecMax v).min' (by
    obtain ⟨i, hi, hvi⟩ :=
      Finset.exists_mem_eq_sup'
        (⟨0, Finset.mem_univ 0⟩ : (Finset.univ : Finset (Fin (n + 1))).Nonempty) v
    exact ⟨i, Finset.mem_filter.mpr ⟨hi, hvi.symm⟩⟩)

/-- remainder_eff of source lines 253-269: standard branch when the maximum
remainder-tissue dose is strictly below the maximum main-tissue dose, split
branch otherwise. remainder_mass (the divisor) is the sum of all ten masses
and is computed before the split branch zeroes the argmax mass, so in the
split branch the nine surviving mass fractions are still divided by the full
ten-tissue mass total. -/
def remainder_eff (d : Organ → ℚ) (m : Fin 10 → ℚ) : ℚ :=
  if vecMax (remainder_tissues d) < vecMax (main_tissues d) then
    (∑ i, (m i / ∑ j, m j) * remainder_tissues d i) * 0.05
  else
    (∑ i, (Function.update m (argmaxVec (remainder_tissues d)) 0 i / ∑ j, m j) *
        remainder_tissues d i) * 0.025 +
      vecMax (remainder_tissues d) * 0.025

/-- remainder_eq of source line 272. -/
def remainder_eq (d : Organ → ℚ) (m : Fin 10 → ℚ) : ℚ :=
  remainder_eff d m / 0.05

/-- One output record of source line 274 (case-constant text columns omitted;
the twelve main-tissue doses, ten remainder-tissue doses, committed effective
dose and the remainder equivalent are kept). -/
structure EffRecord where
  AMAD : ℚ
  AMTD : ℚ
  f : ℚ
  CED : ℚ
  mains : Fin 12 → ℚ
  remainders : Fin 10 → ℚ
  remainderEq : ℚ

/-- One iteration of the per-size-bin loop of source lines 231-275 for a fixed
resolved coefficient row-set, absorption fraction and remainder-mass vector. -/
def processBin (c : CoeffSet) (fv : ℚ) (m : Fin 10 → ℚ) (line : Fin 10 → ℚ) :
    EffRecord :=
  let d := blend c (deriveFractions line)
  { AMAD := line 0
    AMTD := line 1
    f := fv
    CED := main_tissues_eff d + remainder_eff d m
    mains := main_tissues d
    remainders := remainder_tissues d
    remainderEq := remainder_eq d m }

/-- The whole per-size-bin loop of source lines 231-275: one record per
kdep.csv line. -/
def processCase (c : CoeffSet) (fv : ℚ) (m : Fin 10 → ℚ)
    (lines : List (Fin 10 → ℚ)) : List EffRecord :=
  lines.map (processBin c fv m)

/-- One row of an HDB coefficient table: the key columns Nuclide, Age, Class,
the absorption fraction column f, and the per-organ coefficient columns. -/
structure HRow where
  Nuclide : String
  Age : ℕ
  Class : String
  f : ℚ
  doses : Organ → ℚ

/-- The pandas query of source line 200: keep the rows whose Nuclide, Age and
Class columns equal the key. -/
def queryTbl (t : List HRow) (n : String) (ag : ℕ) (s : String) : List HRow :=
  t.filter fun r => decide (r.Nuclide = n ∧ r.Age = ag ∧ r.Class = s)

/-- The ET1 lookup with adult-age fallback and emptiness check of source lines
202-210. When the primary row-set is empty and the age is 9125, the queryline
is rebuilt once with age 7300 and the query is re-run; on failure the script
prints the final queryline and calls exit(), modelled as an error value
carrying the key of the final queryline. On success the surviving row-set is
returned together with the age of the final queryline (which the source keeps
using for the remaining eight tables). -/
def lookupET1 (t : List HRow) (n : String) (ag : ℕ) (s : String) :
    Except (String × ℕ × String) (List HRow × ℕ) :=
  let r := queryTbl t n ag s
  let p := if ag = 9125 ∧ r.isEmpty = true then (queryTbl t n 7300 s, 7300) else (r, ag)
  if p.1.isEmpty = true then Except.error (n, p.2, s) else Except.ok p

/-- The nine HDB coefficient tables read at source lines 119-130. -/
structure Tables where
  ET1 : List HRow
  ET2 : List HRow
  BBEGEL : List HRow
  BBESEQ : List HRow
  BBESOL : List HRow
  BBISEQ : List HRow
  BBISOL : List HRow
  BBIGEL : List HRow
  AI : List HRow

/-- Coefficient columns of the single row the source coerces with float();
empty row-sets yield zeros here, but the source only ever reaches this after
the ET1 emptiness check has passed. -/
def rowDoses (rows : List HRow) : Organ → ℚ :=
  match rows with
  | [] => fun _ => 0
  | r :: _ => r.doses

/-- Absorption fraction f of the resolved ET1 row (source line 212). -/
def rowF (rows : List HRow) : ℚ :=
  match rows with
  | [] => 0
  | r :: _ => r.f

/-- One iteration of the nuclide/solubility loop of source lines 195-281: the
ET1 lookup (with fallback and emptiness check), the queries of the remaining
eight tables with the final queryline, and the per-size-bin dose loop. -/
def runPair (tb : Tables) (ag : ℕ) (m : Fin 10 → ℚ) (lines : List (Fin 10 → ℚ))
    (n s : String) : Except (String × ℕ × String) (List EffRecord) :=
  match lookupET1 tb.ET1 n ag s with
  | Except.error k => Except.error k
  | Except.ok (rows, usedAge) =>
      let c : CoeffSet :=
        { ET1 := rowDoses rows
          ET2 := rowDoses (queryTbl tb.ET2 n usedAge s)
          BBEGEL := rowDoses (queryTbl tb.BBEGEL n usedAge s)
          BBESEQ := rowDoses (queryTbl tb.BBESEQ n usedAge s)
          BBESOL := rowDoses (queryTbl tb.BBESOL n usedAge s)
          BBISEQ := rowDoses (queryTbl tb.BBISEQ n usedAge s)
          BBISOL := rowDoses (queryTbl tb.BBISOL n usedAge s)
          BBIGEL := rowDoses (queryTbl tb.BBIGEL n usedAge s)
          AI := rowDoses (queryTbl tb.AI n usedAge s) }
      Except.ok (processCase c (rowF rows) m lines)

/-- The nuclide/solubility loop of source lines 195-281. Each successful pair
appends its records (the source writes one CSV per pair as it goes); a failed
ET1 lookup calls exit(), which terminates the whole process, so every later
pair is left unprocessed. The second component records the key of the failed
queryline, none when the loop ran to completion. -/
def runAll (tb : Tables) (ag : ℕ) (m : Fin 10 → ℚ) (lines : List (Fin 10 → ℚ)) :
    List (String × String) →
      List (String × String × List EffRecord) × Option (String × ℕ × String)
  | [] => ([], none)
  | (n, s) :: rest =>
      match runPair tb ag m lines n s with
      | Except.error k => ([], some k)
      | Except.ok recs =>
          let t := runAll tb ag m lines rest
          ((n, s, recs) :: t.1, t.2)

/-- Synthetic scaling of all nine compartment fractions by one scalar, used to
state linearity of the blend. -/
def scaleFractions (s : ℚ) (fr : Fractions) : Fractions :=
  { ET1 := s * fr.ET1, ET2 := s * fr.ET2, bbe_GEL := s * fr.bbe_GEL,
    bbe_SEQ := s * fr.bbe_SEQ, bbe_SOL := s * fr.bbe_SOL, BBi_SEQ := s * fr.BBi_SEQ,
    BBi_SOL := s * fr.BBi_SOL, BBi_GEL := s * fr.BBi_GEL, AI := s * fr.AI }

/-- Synthetic coefficient row-set in which every organ coefficient of every
compartment equals one, used to state the unit-coefficient blend property. -/
def onesCoeff : CoeffSet :=
  { ET1 := fun _ => 1, ET2 := fun _ => 1, BBEGEL := fun _ => 1, BBESEQ := fun _ => 1,
    BBESOL := fun _ => 1, BBISEQ := fun _ => 1, BBISOL := fun _ => 1,
    BBIGEL := fun _ => 1, AI := fun _ => 1 }

/-- Concrete organ-dose vector realising the spec scenario for the split
branch: all ten remainder tissues read 10 except the extrathoracic region at
100, and the largest main-tissue dose is the lung dose 50. -/
def exD : Organ → ℚ := fun o =>
  match o with
  | Organ.Lungs => 50
  | Organ.Muscle => 10
  | Organ.Brain => 10
  | Organ.SI_Wall => 10
  | Organ.Kidneys => 10
  | Organ.Pancreas => 10
  | Organ.Spleen => 10
  | Organ.Thymus => 10
  | Organ.Uterus => 10
  | Organ.Adrenals => 10
  | Organ.ET_Region => 100
  | _ => 0

/-- Concrete organ-dose vector taking the standard branch: every organ reads 1
except the lungs at 50. -/
def exDstd : Organ → ℚ := fun o =>
  match o with
  | Organ.Lungs => 50
  | _ => 1

/-- Concrete ET1 row for the nuclide Cs-137, solubility class F, recorded at
the secondary adult age 7300. -/
def rowCs7300 : HRow :=
  { Nuclide := "Cs-137", Age := 7300, Class := "F", f := 1, doses := fun _ => 1 }

/-- Concrete one-row coefficient table holding only rowCs7300. -/
def tblCs : List HRow := [rowCs7300]

/-- Concrete table set using tblCs for all nine tables. -/
def tbAll : Tables :=
  { ET1 := tblCs, ET2 := tblCs, BBEGEL := tblCs, BBESEQ := tblCs, BBESOL := tblCs,
    BBISEQ := tblCs, BBISOL := tblCs, BBIGEL := tblCs, AI := tblCs }

lemma argmaxVec_mem_filter {n : ℕ} (v : Fin (n + 1) → ℚ) :
    argmaxVec v ∈ Finset.univ.filter fun i => v i = vecMax v :=
  Finset.min'_mem _ _

lemma argmaxVec_apply {n : ℕ} (v : Fin (n + 1) → ℚ) :
    v (argmaxVec v) = vecMax v :=
  (Finset.mem_filter.mp (argmaxVec_mem_filter v)).2

lemma sum_update_zero {n : ℕ} (m v : Fin n → ℚ) (M : ℚ) (i0 : Fin n) :
    ∑ i, (Function.update m i0 0 i / M) * v i
      = ∑ i ∈ Finset.univ.erase i0, (m i / M) * v i := by
  rw [← Finset.add_sum_erase _ _ (Finset.mem_univ i0)]
  rw [Function.update_same, zero_div, zero_mul, zero_add]
  refine Finset.sum_congr rfl fun i hi => ?_
  rw [Function.update_noteq (Finset.ne_of_mem_erase hi)]

lemma remainder_tissues_exD : remainder_tissues exD = ![10, 10, 10, 10, 10, 10, 10, 10, 10, 100] :=
  rfl

lemma main_tissues_exD : main_tissues exD = ![0, 0, 0, 50, 0, 0, 0, 0, 10, 0, 0, 0] := by
  funext i
  fin_cases i <;> norm_num [main_tissues, colon, gonads, exD]

set_option maxRecDepth 40000 in
lemma exD_split_cond : ¬ vecMax (remainder_tissues exD) < vecMax (main_tissues exD) := by
  rw [remainder_tissues_exD, main_tissues_exD]
  decide

lemma remainder_tissues_exDstd : remainder_tissues exDstd = ![1, 1, 1, 1, 1, 1, 1, 1, 1, 1] :=
  rfl

lemma main_tissues_exDstd : main_tissues exDstd = ![1, 1, 1, 50, 1, 1, 1, 1, 1, 1, 1, 1] := by
  funext i
  fin_cases i <;> norm_num [main_tissues, colon, gonads, exDstd]

set_option maxRecDepth 40000 in
lemma exDstd_std_cond : vecMax (remainder_tissues exDstd) < vecMax (main_tissues exDstd) := by
  rw [remainder_tissues_exDstd, main_tissues_exDstd]
  decide

lemma adult_masses_pos : ∀ i, 0 < remainder_tissues_dict 0 i := by
  intro i
  fin_cases i <;> norm_num [remainder_tissues_dict]

/-- Claim C3, counterexample: the twelve fixed main-tissue weights of the
source do not sum to 0.60. -/
theorem main_wt_sum_ne_sixty : (∑ i, main_tissues_wt i) ≠ (0.60 : ℚ) := by
  norm_num [main_tissues_wt, Fin.sum_univ_succ]

/-- Claim C3, amended: the twelve fixed main-tissue weights sum to exactly
0.95, and the weight vector is exactly [0.20, 0.12, 0.12, 0.12, 0.12, 0.05,
0.05, 0.05, 0.05, 0.05, 0.01, 0.01], that is gonads 0.20, the next four
tissues 0.12, then five at 0.05 and two at 0.01. -/
theorem main_wt_sum_and_vector :
    (∑ i, main_tissues_wt i) = 0.95 ∧
    main_tissues_wt =
      ![0.2, 0.12, 0.12, 0.12, 0.12, 0.05, 0.05, 0.05, 0.05, 0.05, 0.01, 0.01] := by
  constructor
  · norm_num [main_tissues_wt, Fin.sum_univ_succ]
  · rfl

/-- Claim C6: for every blended organ-dose vector, the colon slot of the
main-tissue vector equals 0.57 times the upper-large-intestine-wall dose plus
0.43 times the lower-large-intestine-wall dose, and the gonad slot equals the
maximum of the ovary and testis doses. -/
theorem colon_gonads_convention (c : CoeffSet) (fr : Fractions) :
    main_tissues (blend c fr) 0
      = max (blend c fr Organ.Ovaries) (blend c fr Organ.Testes) ∧
    main_tissues (blend c fr) 2
      = 0.57 * blend c fr Organ.ULI_Wall + 0.43 * blend c fr Organ.LLI_Wall := by
  constructor
  · rfl
  · show colon (blend c fr) = _
    rw [colon]
    ring

/-- Claim C7: for every kdep.csv line, the nine compartment fractions fed to
the blender are the sequestered, soluble and gel splits of the column-4 total
using FsB with fixed ratio 0.993/0.007, the analogous splits of the column-5
total using Fsbb, and ET1, ET2, AI passed through unchanged. -/
theorem compartment_derivation (line : Fin 10 → ℚ) :
    (deriveFractions line).BBi_SEQ = (parseKdepLine line).B * 0.007 ∧
    (deriveFractions line).BBi_SOL = (parseKdepLine line).B * (parseKdepLine line).FsB ∧
    (deriveFractions line).BBi_GEL
      = (parseKdepLine line).B * (0.993 - (parseKdepLine line).FsB) ∧
    (deriveFractions line).bbe_SEQ = (parseKdepLine line).bb * 0.007 ∧
    (deriveFractions line).bbe_SOL = (parseKdepLine line).bb * (parseKdepLine line).Fsbb ∧
    (deriveFractions line).bbe_GEL
      = (parseKdepLine line).bb * (0.993 - (parseKdepLine line).Fsbb) ∧
    (deriveFractions line).ET1 = (parseKdepLine line).ET1 ∧
    (deriveFractions line).ET2 = (parseKdepLine line).ET2 ∧
    (deriveFractions line).AI = (parseKdepLine line).AI :=
  ⟨rfl, rfl, rfl, rfl, rfl, rfl, rfl, rfl, rfl⟩

/-- Claim C8: the blend is a pure linear combination: scaling all nine
compartment fractions by a scalar scales every organ dose by that scalar, and
with every organ coefficient equal to one in every compartment the blended
dose of every organ is the sum of the nine fractions, independent of the
organ. -/
theorem blend_linearity (c : CoeffSet) (fr : Fractions) (s : ℚ) (o : Organ) :
    blend c (scaleFractions s fr) o = s * blend c fr o ∧
    blend onesCoeff fr o
      = fr.ET1 + fr.ET2 + fr.bbe_GEL + fr.bbe_SEQ + fr.bbe_SOL + fr.BBi_SEQ +
        fr.BBi_SOL + fr.BBi_GEL + fr.AI := by
  refine ⟨?_, ?_⟩
  · simp only [blend, scaleFractions]
    ring
  · simp only [blend, onesCoeff]
    ring

/-- Claim C10: the oesophagus slot of the main-tissue vector (index 8, weight
0.05) holds the Thymus dose, the Thymus dose is also entry 6 of the
remainder-tissue vector, and consequently changing the Thymus dose moves the
main-tissue effective dose by 0.05 times the change and moves the
mass-weighted remainder sum by its mass fraction times the change. -/
theorem thymus_double_counting (d : Organ → ℚ) (m : Fin 10 → ℚ) (t : ℚ) :
    main_tissues d 8 = d Organ.Thymus ∧
    remainder_tissues d 6 = d Organ.Thymus ∧
    main_tissues_wt 8 = 0.05 ∧
    main_tissues_eff (Function.update d Organ.Thymus t)
      = main_tissues_eff d + 0.05 * (t - d Organ.Thymus) ∧
    (∑ i, (m i / ∑ j, m j) * remainder_tissues (Function.update d Organ.Thymus t) i)
      = (∑ i, (m i / ∑ j, m j) * remainder_tissues d i)
        + (m 6 / ∑ j, m j) * (t - d Organ.Thymus) := by
  refine ⟨rfl, rfl, rfl, ?_, ?_⟩
  · simp [main_tissues_eff, main_tissues, main_tissues_wt, gonads, colon,
      Fin.sum_univ_succ, Function.update_apply]
    ring
  · have key : ∀ i : Fin 10,
        remainder_tissues (Function.update d Organ.Thymus t) i
          = remainder_tissues d i
            + (if i = (6 : Fin 10) then t - d Organ.Thymus else 0) := by
      intro i
      fin_cases i
      all_goals norm_num [remainder_tissues, Function.update_apply]
      all_goals simp
    calc
      ∑ i, (m i / ∑ j, m j) * remainder_tissues (Function.update d Organ.Thymus t) i
          = ∑ i, ((m i / ∑ j, m j) * remainder_tissues d i
              + (if i = (6 : Fin 10) then (m i / ∑ j, m j) * (t - d Organ.Thymus) else 0)) := by
            refine Finset.sum_congr rfl fun i _ => ?_
            rw [key i]
            rcases eq_or_ne i (6 : Fin 10) with h | h
            · subst h
              simp only [if_pos rfl]
              simp
              ring
            · simp only [if_neg h]
              simp
      _ = (∑ i, (m i / ∑ j, m j) * remainder_tissues d i)
            + ∑ i, (if i = (6 : Fin 10) then (m i / ∑ j, m j) * (t - d Organ.Thymus) else 0) :=
            Finset.sum_add_distrib
      _ = (∑ i, (m i / ∑ j, m j) * remainder_tissues d i)
            + (m 6 / ∑ j, m j) * (t - d Organ.Thymus) := by
            rw [Finset.sum_ite_eq' Finset.univ (6 : Fin 10)
              (fun i => (m i / ∑ j, m j) * (t - d Organ.Thymus))]
            simp


/-- Claim C1: in the split case (taken when the maximum remainder-tissue dose
is not strictly below the maximum main-tissue dose), for every organ-dose
vector and every positive remainder-mass vector the remainder effective dose
equals 0.025 times the dose of the first highest-dose remainder tissue plus
0.025 times the sum, over the other nine remainder tissues, of mass fraction
times dose, the mass fraction being the tissue mass (with the highest-dose
mass zeroed) over the total ten-tissue mass. -/
theorem split_branch_remainder (d : Organ → ℚ) (m : Fin 10 → ℚ)
    (hbr : ¬ vecMax (remainder_tissues d) < vecMax (main_tissues d))
    (hm : ∀ i, 0 < m i) :
    remainder_eff d m =
      0.025 * remainder_tissues d (argmaxVec (remainder_tissues d)) +
        0.025 * ∑ i ∈ Finset.univ.erase (argmaxVec (remainder_tissues d)),
          (m i / ∑ j, m j) * remainder_tissues d i := by
  rw [remainder_eff, if_neg hbr, sum_update_zero, ← argmaxVec_apply (remainder_tissues d)]
  ring

/-- Claim C1 witness: the spec scenario with remainder-tissue doses
[10, 10, 10, 10, 10, 10, 10, 10, 10, 100], maximum main-tissue dose 50 and the
adult remainder masses. -/
theorem split_branch_remainder_witness :
    (¬ vecMax (remainder_tissues exD) < vecMax (main_tissues exD)) ∧
    (∀ i, 0 < remainder_tissues_dict 0 i) ∧
    remainder_eff exD (remainder_tissues_dict 0) =
      0.025 * remainder_tissues exD (argmaxVec (remainder_tissues exD)) +
        0.025 * ∑ i ∈ Finset.univ.erase (argmaxVec (remainder_tissues exD)),
          (remainder_tissues_dict 0 i / ∑ j, remainder_tissues_dict 0 j) *
            remainder_tissues exD i :=
  ⟨exD_split_cond, adult_masses_pos,
    split_branch_remainder exD (remainder_tissues_dict 0) exD_split_cond adult_masses_pos⟩

/-- Claim C5: the engine takes the standard branch (remainder effective dose
0.05 times the mass-fraction-weighted sum over all ten remainder tissues)
exactly when the maximum remainder-tissue dose is strictly below the maximum
main-tissue dose, and the split branch otherwise; and the per-size-bin loop
evaluates this selection independently for each size bin, each output record
being a function of its own kdep.csv line alone. -/
theorem remainder_branch_selection (d : Organ → ℚ) (m : Fin 10 → ℚ) (c : CoeffSet)
    (fv : ℚ) (lines : List (Fin 10 → ℚ)) :
    (remainder_eff d m =
      if vecMax (remainder_tissues d) < vecMax (main_tissues d) then
        0.05 * ∑ i, (m i / ∑ j, m j) * remainder_tissues d i
      else
        0.025 * remainder_tissues d (argmaxVec (remainder_tissues d)) +
          0.025 * ∑ i ∈ Finset.univ.erase (argmaxVec (remainder_tissues d)),
            (m i / ∑ j, m j) * remainder_tissues d i) ∧
    processCase c fv m lines = lines.map (fun line => processBin c fv m line) ∧
    (processCase c fv m lines).map (fun r => r.remainderEq)
      = lines.map (fun line => remainder_eq (blend c (deriveFractions line)) m) := by
  refine ⟨?_, rfl, ?_⟩
  · by_cases h : vecMax (remainder_tissues d) < vecMax (main_tissues d)
    · rw [remainder_eff, if_pos h, if_pos h]
      ring
    · rw [remainder_eff, if_neg h, if_neg h, sum_update_zero,
        ← argmaxVec_apply (remainder_tissues d)]
      ring
  · simp [processCase, processBin]

/-- Claim C9: the reported remainder equivalent is the remainder effective
dose divided by 0.05, so multiplying it back by 0.05 recovers the remainder
effective dose exactly (stated, as the claim does, under the standard-branch
condition). -/
theorem remainder_equivalent_relation (d : Organ → ℚ) (m : Fin 10 → ℚ)
    (hstd : vecMax (remainder_tissues d) < vecMax (main_tissues d)) :
    remainder_eq d m * 0.05 = remainder_eff d m := by
  rw [remainder_eq, div_mul_cancel₀]
  norm_num

/-- Claim C9 witness: a standard-branch dose vector (all organs 1 except the
lungs at 50) with the adult remainder masses. -/
theorem remainder_equivalent_relation_witness :
    vecMax (remainder_tissues exDstd) < vecMax (main_tissues exDstd) ∧
    remainder_eq exDstd (remainder_tissues_dict 0) * 0.05
      = remainder_eff exDstd (remainder_tissues_dict 0) :=
  ⟨exDstd_std_cond,
    remainder_equivalent_relation exDstd (remainder_tissues_dict 0) exDstd_std_cond⟩

/-- Claim C2, counterexample: with a table containing only Cs-137 at age 7300,
a run over the pairs (Xx, F) then (Cs-137, F) stops at the failed lookup of Xx
and produces no output at all, although the pair (Cs-137, F) on its own
resolves and produces its record list; so a failed lookup does abort the whole
run instead of letting the other pairs continue. -/
theorem lookup_failure_abort_counterexample :
    runAll tbAll 9125 (fun _ => 1) [] [("Xx", "F"), ("Cs-137", "F")]
      = ([], some ("Xx", 7300, "F")) ∧
    runAll tbAll 9125 (fun _ => 1) [] [("Cs-137", "F")]
      = ([("Cs-137", "F", [])], none) :=
  ⟨rfl, rfl⟩

/-- Claim C2, amended: a lookup that resolves to an empty row-set even after
the adult-age fallback reports the offending key of the final queryline and
aborts the entire run (the source calls exit()), so no later nuclide and
solubility pair is processed and no output is produced by the aborted loop. -/
theorem lookup_failure_aborts_run (tb : Tables) (ag : ℕ) (m : Fin 10 → ℚ)
    (lines : List (Fin 10 → ℚ)) (n s : String) (k : String × ℕ × String)
    (rest : List (String × String))
    (h : lookupET1 tb.ET1 n ag s = Except.error k) :
    runAll tb ag m lines ((n, s) :: rest) = ([], some k) := by
  simp [runAll, runPair, h]

/-- Claim C2 witness: the failing pair (Xx, F) at the head of the run. -/
theorem lookup_failure_aborts_run_witness :
    lookupET1 tbAll.ET1 "Xx" 9125 "F" = Except.error ("Xx", 7300, "F") ∧
    runAll tbAll 9125 (fun _ => 1) [] [("Xx", "F"), ("Cs-137", "F")]
      = ([], some ("Xx", 7300, "F")) :=
  ⟨rfl,
    lookup_failure_aborts_run tbAll 9125 (fun _ => 1) [] "Xx" "F"
      ("Xx", 7300, "F") [("Cs-137", "F")] rfl⟩

/-- Claim C4: when the primary row-set is empty and the age is 9125 the
resolver retries exactly once with the secondary adult age 7300 and its result
is entirely decided by that second query; for any age other than 9125 an empty
row-set fails immediately with the original key and no retry; and when the
fallback query is nonempty, resolution succeeds with the fallback rows. -/
theorem adult_age_fallback (t : List HRow) (n s : String) :
    (queryTbl t n 9125 s = [] →
      lookupET1 t n 9125 s =
        (if (queryTbl t n 7300 s).isEmpty = true then Except.error (n, 7300, s)
         else Except.ok (queryTbl t n 7300 s, 7300))) ∧
    (∀ ag : ℕ, ag ≠ 9125 → queryTbl t n ag s = [] →
      lookupET1 t n ag s = Except.error (n, ag, s)) ∧
    (∀ rows : List HRow, queryTbl t n 9125 s = [] → queryTbl t n 7300 s = rows →
      rows ≠ [] → lookupET1 t n 9125 s = Except.ok (rows, 7300)) := by
  refine ⟨?_, ?_, ?_⟩
  · intro h
    simp only [lookupET1]
    rw [h]
    simp
  · intro ag hag h
    simp [lookupET1, h, hag]
  · intro rows h1 h2 hne
    match rows, hne with
    | r :: rs, _ => simp [lookupET1, h1, h2]

/-- Claim C4 witness: the nuclide Cs-137 with solubility class F is absent at
age 9125 but present at age 7300, and resolution succeeds via the fallback. -/
theorem adult_age_fallback_witness :
    queryTbl tblCs "Cs-137" 9125 "F" = [] ∧
    queryTbl tblCs "Cs-137" 7300 "F" = [rowCs7300] ∧
    lookupET1 tblCs "Cs-137" 9125 "F" = Except.ok ([rowCs7300], 7300) :=
  ⟨rfl, rfl,
    (adult_age_fallback tblCs "Cs-137" "F").2.2 [rowCs7300] rfl rfl (by simp)⟩

end Depdose
